import Mathlib

/-!
Shallow embedding of the Trellis order-fulfillment saga
(`app/stubs/business.py`, `app/workflows/order_workflow.py`,
`app/workflows/shipping_workflow.py`, `app/activities/*.py`,
`app/api/main.py`) and proofs of the specification claims.

Conventions of the embedding:
* Python dict-shaped values are embedded as structures holding exactly the
  fields the verified code reads.
* The database (tables `orders`, `events`, `payments`) is an explicit
  record of row lists; every business operation is a pure function
  `... → Except BizError (DB × result)` — on error the transaction rolls
  back, so the caller keeps the pre-call database.
* The transient-failure simulator `app/stubs/flaky.py` is imported by
  `business.py` but its file is not part of the sources; following the
  specification (§4.3: a simulator that randomly fails a fraction of
  calls, otherwise unspecified) each business operation takes a Boolean
  saying whether its `flaky_call()` raises on this invocation.  The
  Boolean is supplied per attempt by the environment of a run.
* Durations and timeouts are in milliseconds, as natural numbers.
-/

namespace Trellis

/-- A line item.  In the source an item is a JSON object; the only field
the business logic reads is `qty` (`int(i.get("qty", 1))` in
`_sum_amount`), so an item is embedded as its optional integer quantity
(`none` when the `qty` key is absent). -/
structure Item where
  qty : Option Int
  deriving Repr, DecidableEq

/-- A shipping address (`Dict[str, Any]` in the source), embedded as an
association list; no verified operation inspects its content. -/
abbrev Address := List (String × String)

/-- `_sum_amount` from `app/stubs/business.py`: the demo amount is the sum
of the item quantities, default quantity 1. -/
def sumAmount (items : List Item) : Int :=
  (items.map (fun i => i.qty.getD 1)).sum

/-- The working order record built by `order_received` and passed to the
later steps: `{"order_id": ..., "items": ..., "address": ...}`. -/
structure OrderInfo where
  order_id : String
  items : List Item
  address : Address
  deriving Repr, DecidableEq

/-- A row of the `orders` table.  `updated_at` is not modelled; the
`events` table records the audit trail the claims are about. -/
structure OrderRow where
  id : String
  state : String
  address : Option Address
  deriving Repr, DecidableEq

/-- A row of the append-only `events` table (payload omitted; no claim
inspects payloads). -/
structure EventRow where
  order_id : String
  type : String
  deriving Repr, DecidableEq

/-- A row of the `payments` table; `payment_id` carries a unique
constraint in the schema. -/
structure PaymentRow where
  payment_id : String
  order_id : String
  amount : Int
  status : String
  deriving Repr, DecidableEq

/-- The persistent store: tables `orders`, `events`, `payments`. -/
structure DB where
  orders : List OrderRow
  events : List EventRow
  payments : List PaymentRow
  deriving Repr, DecidableEq

/-- Errors raised by the business operations: the simulated transient
failure from `flaky_call()`, the `ValueError("No items to validate")` of
`order_validated`, and the defensive `RuntimeError` of `payment_charged`. -/
inductive BizError
  | flaky
  | noItems
  | paymentMissing
  deriving Repr, DecidableEq

/-- First `payments` row with the given `payment_id` (the `SELECT ...
WHERE payment_id = :pid` read-back; the unique constraint makes the row
unique in reachable states). -/
def findPayment (db : DB) (pid : String) : Option PaymentRow :=
  db.payments.find? (fun r => r.payment_id == pid)

/-- Number of `payments` rows with the given `payment_id`. -/
def paymentRowCount (db : DB) (pid : String) : Nat :=
  (db.payments.filter (fun r => r.payment_id == pid)).length

/-- First `orders` row with the given id. -/
def findOrder (db : DB) (oid : String) : Option OrderRow :=
  db.orders.find? (fun r => r.id == oid)

/-- `order_received` from `app/stubs/business.py`: after `flaky_call()`,
insert the order row (`ON CONFLICT (id) DO UPDATE SET updated_at = NOW()`,
i.e. an existing row is left unchanged apart from its timestamp), append
an `order_received` event, and return the working order record. -/
def order_received (flaky : Bool) (db : DB) (order_id : String)
    (items : List Item) (address : Address) :
    Except BizError (DB × OrderInfo) :=
  if flaky then .error .flaky else
  let orders1 :=
    if db.orders.any (fun r => r.id == order_id) then db.orders
    else db.orders ++ [⟨order_id, "received", some address⟩]
  let db1 : DB :=
    { db with orders := orders1,
              events := db.events ++ [⟨order_id, "order_received"⟩] }
  .ok (db1, ⟨order_id, items, address⟩)

/-- `order_validated` from `app/stubs/business.py`: after `flaky_call()`,
raise `ValueError` when `order.get("items")` is falsy, otherwise set the
order state to `validated` and append an `order_validated` event. -/
def order_validated (flaky : Bool) (db : DB) (order : OrderInfo) :
    Except BizError (DB × Bool) :=
  if flaky then .error .flaky else
  if order.items.isEmpty then .error .noItems else
  let orders1 := db.orders.map (fun r =>
    if r.id == order.order_id then { r with state := "validated" } else r)
  let db1 : DB :=
    { db with orders := orders1,
              events := db.events ++ [⟨order.order_id, "order_validated"⟩] }
  .ok (db1, true)

/-- The `{status, amount, payment_id}` record returned by
`payment_charged`. -/
structure ChargeResult where
  status : String
  amount : Int
  payment_id : String
  deriving Repr, DecidableEq

/-- `payment_charged` from `app/stubs/business.py`: after `flaky_call()`,
`INSERT ... ON CONFLICT (payment_id) DO NOTHING`, read the row back
(raising the defensive `RuntimeError` if absent), append a
`payment_charged` event carrying the persisted values, and return the
persisted `{status, amount, payment_id}`. -/
def payment_charged (flaky : Bool) (db : DB) (order : OrderInfo)
    (payment_id : String) : Except BizError (DB × ChargeResult) :=
  if flaky then .error .flaky else
  let amount := sumAmount order.items
  let payments1 :=
    if (findPayment db payment_id).isSome then db.payments
    else db.payments ++ [⟨payment_id, order.order_id, amount, "charged"⟩]
  let db1 : DB := { db with payments := payments1 }
  match findPayment db1 payment_id with
  | none => .error .paymentMissing
  | some row =>
      let db2 : DB :=
        { db1 with events := db1.events ++ [⟨order.order_id, "payment_charged"⟩] }
      .ok (db2, ⟨row.status, row.amount, row.payment_id⟩)

/-- `order_shipped` from `app/stubs/business.py`: set the order state to
`shipped` and append an `order_shipped` event.  (Reachable only through
`mark_shipped_activity`; see claim C10.) -/
def order_shipped (flaky : Bool) (db : DB) (order : OrderInfo) :
    Except BizError (DB × String) :=
  if flaky then .error .flaky else
  let orders1 := db.orders.map (fun r =>
    if r.id == order.order_id then { r with state := "shipped" } else r)
  let db1 : DB :=
    { db with orders := orders1,
              events := db.events ++ [⟨order.order_id, "order_shipped"⟩] }
  .ok (db1, "Shipped")

/-- `package_prepared` from `app/stubs/business.py`: append-only event. -/
def package_prepared (flaky : Bool) (db : DB) (order : OrderInfo) :
    Except BizError (DB × String) :=
  if flaky then .error .flaky else
  let db1 : DB := { db with events := db.events ++ [⟨order.order_id, "package_prepared"⟩] }
  .ok (db1, "Package ready")

/-- `carrier_dispatched` from `app/stubs/business.py`: append-only event. -/
def carrier_dispatched (flaky : Bool) (db : DB) (order : OrderInfo) :
    Except BizError (DB × String) :=
  if flaky then .error .flaky else
  let db1 : DB := { db with events := db.events ++ [⟨order.order_id, "carrier_dispatched"⟩] }
  .ok (db1, "Dispatched")

/-- Repeated invocation of the payment-charged operation with the same
order and `payment_id`: `chargeSeq order pid n db` performs `n`
successful (non-flaky) calls in sequence, returning the final database
and the list of returned `{status, amount, payment_id}` records. -/
def chargeSeq (order : OrderInfo) (pid : String) :
    Nat → DB → Except BizError (DB × List ChargeResult)
  | 0, db => .ok (db, [])
  | n + 1, db =>
    match payment_charged false db order pid with
    | .error e => .error e
    | .ok (db1, r) =>
      match chargeSeq order pid n db1 with
      | .error e => .error e
      | .ok (db2, rs) => .ok (db2, r :: rs)

/-- An error surfaced by one activity attempt: the Python exception type
name, its message, and whether the runtime classifies it as
non-retryable.  Neither workflow's `RetryPolicy` lists
`non_retryable_error_types` and the activities raise plain exceptions, so
every error produced by this code base is retryable. -/
structure ActivityError where
  name : String
  msg : String
  nonRetryable : Bool
  deriving Repr, DecidableEq

/-- Outcome of a single activity attempt, with its duration in
milliseconds (supplied by the run's environment). -/
inductive AttemptResult (α : Type)
  | ok (v : α) (dur : Nat)
  | err (e : ActivityError) (dur : Nat)
  deriving Repr

/-- The retry policy of `ACT_OPTS`, identical in
`order_workflow.py` and `shipping_workflow.py`: initial interval 200 ms,
backoff coefficient 2.0, maximum interval 1 s, maximum attempts 3.
Intervals in milliseconds; the coefficient 2.0 is the exact natural 2. -/
structure RetryPolicy where
  initialInterval : Nat
  backoffCoefficient : Nat
  maximumInterval : Nat
  maximumAttempts : Nat
  deriving Repr, DecidableEq

def actRetryPolicy : RetryPolicy := ⟨200, 2, 1000, 3⟩

/-- `start_to_close_timeout=timedelta(seconds=1)` of `ACT_OPTS`, ms. -/
def actStartToClose : Nat := 1000

/-- `schedule_to_close_timeout=timedelta(seconds=3)` of `ACT_OPTS`, ms. -/
def actScheduleToClose : Nat := 3000

/-- The backoff wait after the failure of the given (1-based) attempt:
`initial * coefficient ^ (attempt - 1)`, capped at the maximum interval. -/
def backoffInterval (p : RetryPolicy) (attempt : Nat) : Nat :=
  min (p.initialInterval * p.backoffCoefficient ^ (attempt - 1)) p.maximumInterval

def startToCloseTimeoutError : ActivityError :=
  ⟨"TimeoutError", "start_to_close timeout", false⟩

def scheduleToCloseTimeoutError : ActivityError :=
  ⟨"TimeoutError", "schedule_to_close timeout", true⟩

/-- What the retry executor did for one step: the surfaced result (the
last error when retries are exhausted), the number of attempts made, and
the backoff waits performed between attempts, in order. -/
structure RetryTrace (α : Type) where
  result : Except ActivityError α
  attempts : Nat
  waits : List Nat
  deriving Repr

/-- One iteration of the activity retry loop.  `fuel` is the number of
attempts still permitted (initially `maximumAttempts`, which is 3 here —
the `fuel = 0` starting case is unreachable for this configuration);
`attempt` is the 1-based attempt number, `elapsed` the milliseconds spent
since the step was scheduled.  An attempt running past the per-attempt
deadline counts as a retryable start-to-close timeout; the overall
schedule-to-close deadline bounds execution plus backoff across attempts. -/
def retryExecGo (p : RetryPolicy) (stc sctc : Nat) (op : Nat → AttemptResult α) :
    Nat → Nat → Nat → List Nat → RetryTrace α
  | 0, attempt, _, waits => ⟨.error scheduleToCloseTimeoutError, attempt - 1, waits.reverse⟩
  | fuel + 1, attempt, elapsed, waits =>
    let r := op attempt
    let dur := match r with | .ok _ d => d | .err _ d => d
    let elapsed1 := elapsed + dur
    let res : Except ActivityError α :=
      if elapsed1 > sctc then .error scheduleToCloseTimeoutError
      else if dur > stc then .error startToCloseTimeoutError
      else match r with
        | .ok v _ => .ok v
        | .err e _ => .error e
    match res with
    | .ok v => ⟨.ok v, attempt, waits.reverse⟩
    | .error e =>
      if e.nonRetryable then ⟨.error e, attempt, waits.reverse⟩
      else if fuel = 0 then ⟨.error e, attempt, waits.reverse⟩
      else
        let w := backoffInterval p attempt
        if elapsed1 + w > sctc then ⟨.error e, attempt, waits.reverse⟩
        else retryExecGo p stc sctc op fuel (attempt + 1) (elapsed1 + w) (w :: waits)

/-- The activity retry executor: runs `op` attempt by attempt under the
policy and the per-attempt / overall deadlines. -/
def retryExec (p : RetryPolicy) (stc sctc : Nat) (op : Nat → AttemptResult α) : RetryTrace α :=
  retryExecGo p stc sctc op p.maximumAttempts 1 0 []

/-- How a business-operation error surfaces to the retry executor.  The
exception names and messages follow `business.py`; the flaky message
follows the repository tests.  None is marked non-retryable: the
workflows configure no `non_retryable_error_types`, so the runtime
retries every application error, including the `ValueError` of
`order_validated`. -/
def toActivityError : BizError → ActivityError
  | .flaky => ⟨"RuntimeError", "Forced failure for testing", false⟩
  | .noItems => ⟨"ValueError", "No items to validate", false⟩
  | .paymentMissing => ⟨"RuntimeError", "Payment record missing after insert attempt", false⟩

/-- `workflow.execute_activity(..., **ACT_OPTS)`: run one business
operation through the retry executor.  `flaky k` says whether the
transient-failure simulator fires on attempt `k`, `durs k` is that
attempt's duration.  Failed attempts roll their transaction back, so
every attempt starts from the same database. -/
def runActivity (flaky : Nat → Bool) (durs : Nat → Nat) (db : DB)
    (op : Bool → DB → Except BizError (DB × α)) : RetryTrace (DB × α) :=
  retryExec actRetryPolicy actStartToClose actScheduleToClose (fun k =>
    match op (flaky k) db with
    | .error e => .err (toActivityError e) (durs k)
    | .ok r => .ok r (durs k))

/-- The values `OrderWorkflow.current_step` takes in the source:
`"init"`, `"receive"`, `"validate"`, `"manual_review"`, `"charge"`,
`"shipping"`, `"shipped"`. -/
inductive StepName
  | init
  | receive
  | validate
  | manualReview
  | charge
  | shipping
  | shipped
  deriving Repr, DecidableEq

/-- Position of a step in the canonical ordering of the specification. -/
def StepName.idx : StepName → Nat
  | .init => 0
  | .receive => 1
  | .validate => 2
  | .manualReview => 3
  | .charge => 4
  | .shipping => 5
  | .shipped => 6

/-- A saga state as the specification views it: one of the
`current_step` values, or the terminal `canceled` state.  The source
represents cancellation by returning `"Canceled"` while `current_step`
still reads `"manual_review"`; the state trace of a run appends
`canceledState` at that return to model the specification's state view. -/
inductive SagaState
  | step (s : StepName)
  | canceledState
  deriving Repr, DecidableEq

/-- The saga-local fields of `OrderWorkflow`. -/
structure WfState where
  order_id : String
  payment_id : String
  items : List Item
  address : Option Address
  approved : Bool
  canceled : Bool
  current_step : StepName
  dispatch_failed_reason : Option String
  deriving Repr, DecidableEq

/-- `OrderWorkflow.__init__`: empty ids, no address, no items, both flags
false, `current_step = "init"`, no dispatch-failure reason. -/
def initWfState : WfState := ⟨"", "", [], none, false, false, .init, none⟩

/-- The signals of `OrderWorkflow`. -/
inductive Sig
  | cancelOrder (reason : String)
  | updateAddress (a : Address)
  | approve
  | dispatchFailedSig (reason : String)
  deriving Repr, DecidableEq

/-- The signal handlers: `cancel_order` sets `canceled` (the reason is
dropped), `update_address` replaces the address, `approve` sets
`approved`, `dispatch_failed` records the reason. -/
def applySig (s : WfState) : Sig → WfState
  | .cancelOrder _ => { s with canceled := true }
  | .updateAddress a => { s with address := some a }
  | .approve => { s with approved := true }
  | .dispatchFailedSig r => { s with dispatch_failed_reason := some r }

/-- A batch of signals applied in arrival order. -/
def applySigs (s : WfState) (sigs : List Sig) : WfState := sigs.foldl applySig s

/-- The `status()` query payload
`{step, approved, canceled, address, dispatch_failed_reason}`. -/
structure StatusSnapshot where
  step : StepName
  approved : Bool
  canceled : Bool
  address : Option Address
  dispatch_failed_reason : Option String
  deriving Repr, DecidableEq

/-- The `status()` query: a side-effect-free snapshot of the saga-local
fields, available at any point of the instance's life. -/
def status (s : WfState) : StatusSnapshot :=
  ⟨s.current_step, s.approved, s.canceled, s.address, s.dispatch_failed_reason⟩

/-- The ledger operations of `business.py`, recorded one entry per
activity step the workflows invoke (each invocation makes one or more
attempts of the same operation). -/
inductive LedgerOp
  | opOrderReceived
  | opOrderValidated
  | opPaymentCharged
  | opOrderShipped
  | opPackagePrepared
  | opCarrierDispatched
  deriving Repr, DecidableEq

/-- Environment of one `ShippingWorkflow` run: per-attempt flaky bits and
durations for its two activities. -/
structure ShipEnv where
  prepareFlaky : Nat → Bool
  prepareDur : Nat → Nat
  dispatchFlaky : Nat → Bool
  dispatchDur : Nat → Nat

/-- Environment of one `OrderWorkflow` run: per-attempt flaky bits and
durations for each activity, the signal batches delivered at each
suspension point (before the first workflow task, after each activity,
during the manual-review wait, after the charge, after the child
completes), the child's environment, and whether the child's best-effort
`dispatch_failed` signal reaches the parent. -/
structure Env where
  preSignals : List Sig
  receiveFlaky : Nat → Bool
  receiveDur : Nat → Nat
  postReceiveSignals : List Sig
  validateFlaky : Nat → Bool
  validateDur : Nat → Nat
  postValidateSignals : List Sig
  gateSignals : List Sig
  chargeFlaky : Nat → Bool
  chargeDur : Nat → Nat
  postChargeSignals : List Sig
  shipEnv : ShipEnv
  signalDelivered : Bool
  postChildSignals : List Sig

/-- `workflow.wait_condition(..., timeout=timedelta(seconds=4))`: the
bounded manual-review wait, in milliseconds. -/
def manualReviewTimeout : Nat := 4000

/-- Terminal observation of a run: a completed result string, a fatal
failure carrying the surfaced error, or — when the manual-review wait
elapses with neither flag set — a suspended instance.  The suspension
models the runtime semantics the specification fixes in §4.1/§9: the
elapsed wait raises a timeout that fails the workflow task, not the
workflow, leaving the instance suspended at the named step rather than
producing a terminal result. -/
inductive RunOutcome
  | completed (r : String)
  | failed (e : ActivityError)
  | suspended (at_ : StepName)
  deriving Repr, DecidableEq

/-- Everything observable about one run: the final saga-local state, the
outcome, the final database, the ledger operations invoked (in order),
and the trace of saga states entered. -/
structure RunResult where
  final : WfState
  outcome : RunOutcome
  db : DB
  ledgerOps : List LedgerOp
  states : List SagaState
  deriving Repr

/-- What one `ShippingWorkflow` run produced: its result (or surfaced
error), the database it left, the ledger operations it invoked, and the
`dispatch_failed` reason it signalled to its parent (sent only when the
dispatch step exhausted its retries; `str(e)` is embedded as the error
message). -/
structure ShipResult where
  result : Except ActivityError String
  db : DB
  ledgerOps : List LedgerOp
  signalSent : Option String
  deriving Repr

/-- `ShippingWorkflow.run`: `prepare_package_activity`, then
`dispatch_carrier_activity`, each through the retry executor with
`ACT_OPTS`.  A prepare failure surfaces without signalling; a dispatch
failure signals `dispatch_failed(str(e))` to the parent and then
re-raises; on success the run returns `"Shipped"`. -/
def shippingRun (env : ShipEnv) (db : DB) (order : OrderInfo) : ShipResult :=
  match (runActivity env.prepareFlaky env.prepareDur db
      (fun fl d => package_prepared fl d order)).result with
  | .error e => ⟨.error e, db, [.opPackagePrepared], none⟩
  | .ok (db1, _) =>
    match (runActivity env.dispatchFlaky env.dispatchDur db1
        (fun fl d => carrier_dispatched fl d order)).result with
    | .error e => ⟨.error e, db1, [.opPackagePrepared, .opCarrierDispatched], some e.msg⟩
    | .ok (db2, _) => ⟨.ok "Shipped", db2, [.opPackagePrepared, .opCarrierDispatched], none⟩

/-- Best-effort delivery of the child's `dispatch_failed` signal to the
parent: applied only when the child sent it and delivery succeeds. -/
def deliverChildSignal (s : WfState) (sent : Option String) (delivered : Bool) : WfState :=
  match sent, delivered with
  | some r, true => applySig s (.dispatchFailedSig r)
  | _, _ => s

/-- The saga-local state at the moment the `manual_review` gate is
evaluated.  Signals and the run's own assignments are the only writers of
saga-local fields, so this state is a pure function of the inputs and the
delivered signal batches, independent of activity results; it equals the
gate-time state of `orderRun` whenever the run reaches the gate. -/
def gateState (env : Env) (order_id payment_id : String)
    (items : List Item) (address : Address) : WfState :=
  let s1 := applySigs initWfState env.preSignals
  let s2 := { s1 with order_id := order_id, payment_id := payment_id,
                      items := items, address := some address }
  let s3 := { s2 with current_step := StepName.receive }
  let s4 := applySigs s3 env.postReceiveSignals
  let s5 := { s4 with current_step := StepName.validate }
  let s6 := applySigs s5 env.postValidateSignals
  let s7 := { s6 with current_step := StepName.manualReview }
  applySigs s7 env.gateSignals

/-- The shipping phase of `OrderWorkflow.run`, entered with the
saga-local state `s10` just after the post-charge signals were applied:
set `current_step` to `shipping`, spawn the child `ShippingWorkflow` with
the current `{order_id, items, address}` snapshot, await it (applying its
`dispatch_failed` signal when delivered, then any signals arriving during
the wait); a child failure surfaces fatally, a child success sets
`current_step` to `shipped` and returns the child's result. -/
def runShipping (env : Env) (db3 : DB) (s10 : WfState) : RunResult :=
  let s11 := { s10 with current_step := StepName.shipping }
  let ship := shippingRun env.shipEnv db3 ⟨s11.order_id, s11.items, s11.address.getD []⟩
  let s12 := deliverChildSignal s11 ship.signalSent env.signalDelivered
  let s13 := applySigs s12 env.postChildSignals
  match ship.result with
  | .error e =>
    ⟨s13, .failed e, ship.db,
      [.opOrderReceived, .opOrderValidated, .opPaymentCharged] ++ ship.ledgerOps,
      [.step .init, .step .receive, .step .validate, .step .manualReview,
        .step .charge, .step .shipping]⟩
  | .ok r =>
    ⟨{ s13 with current_step := StepName.shipped }, .completed r, ship.db,
      [.opOrderReceived, .opOrderValidated, .opPaymentCharged] ++ ship.ledgerOps,
      [.step .init, .step .receive, .step .validate, .step .manualReview,
        .step .charge, .step .shipping, .step .shipped]⟩

/-- The charge phase of `OrderWorkflow.run`, entered with the saga-local
state `s8` observed at the gate: set `current_step` to `charge`, invoke
the idempotent payment with the current `{order_id, items, address}` and
`payment_id`; a fatal failure ends the run, success applies the
post-charge signals and proceeds to the shipping phase. -/
def runCharge (env : Env) (db2 : DB) (s8 : WfState) : RunResult :=
  let s9 := { s8 with current_step := StepName.charge }
  match (runActivity env.chargeFlaky env.chargeDur db2
      (fun fl d => payment_charged fl d ⟨s9.order_id, s9.items, s9.address.getD []⟩
        s9.payment_id)).result with
  | .error e =>
    ⟨s9, .failed e, db2, [.opOrderReceived, .opOrderValidated, .opPaymentCharged],
      [.step .init, .step .receive, .step .validate, .step .manualReview, .step .charge]⟩
  | .ok (db3, _) => runShipping env db3 (applySigs s9 env.postChargeSignals)

/-- `OrderWorkflow.run`.  Mirrors the source step by step: handlers for
signals queued before start run first, then the run body overwrites
`order_id`, `payment_id`, `items` (`items or []`), `address`
(`address or {}`); each step sets `current_step` on entry and then
executes its activity through the retry executor; the `manual_review`
gate suspends until `approved or canceled` or the bounded wait elapses
(suspension per the runtime semantics, see `RunOutcome`); cancellation
observed at the gate returns `"Canceled"`; otherwise the run continues
with the charge and shipping phases (`runCharge`, `runShipping`). -/
def orderRun (env : Env) (db0 : DB) (order_id payment_id : String)
    (items : List Item) (address : Address) : RunResult :=
  let s1 := applySigs initWfState env.preSignals
  let s2 := { s1 with order_id := order_id, payment_id := payment_id,
                      items := items, address := some address }
  let s3 := { s2 with current_step := StepName.receive }
  match (runActivity env.receiveFlaky env.receiveDur db0
      (fun fl d => order_received fl d order_id s2.items (s2.address.getD []))).result with
  | .error e =>
    ⟨s3, .failed e, db0, [.opOrderReceived], [.step .init, .step .receive]⟩
  | .ok (db1, order) =>
    let s4 := applySigs s3 env.postReceiveSignals
    let s5 := { s4 with current_step := StepName.validate }
    match (runActivity env.validateFlaky env.validateDur db1
        (fun fl d => order_validated fl d order)).result with
    | .error e =>
      ⟨s5, .failed e, db1, [.opOrderReceived, .opOrderValidated],
        [.step .init, .step .receive, .step .validate]⟩
    | .ok (db2, _) =>
      let s6 := applySigs s5 env.postValidateSignals
      let s7 := { s6 with current_step := StepName.manualReview }
      let s8 := applySigs s7 env.gateSignals
      if s8.approved || s8.canceled then
        if s8.canceled then
          ⟨s8, .completed "Canceled", db2, [.opOrderReceived, .opOrderValidated],
            [.step .init, .step .receive, .step .validate, .step .manualReview, .canceledState]⟩
        else runCharge env db2 s8
      else
        ⟨s8, .suspended .manualReview, db2, [.opOrderReceived, .opOrderValidated],
          [.step .init, .step .receive, .step .validate, .step .manualReview]⟩

/-- The prefix of the canonical state chain ending at the given step. -/
def chainTo : StepName → List SagaState
  | .init => [.step .init]
  | .receive => [.step .init, .step .receive]
  | .validate => [.step .init, .step .receive, .step .validate]
  | .manualReview => [.step .init, .step .receive, .step .validate, .step .manualReview]
  | .charge => [.step .init, .step .receive, .step .validate, .step .manualReview, .step .charge]
  | .shipping => [.step .init, .step .receive, .step .validate, .step .manualReview,
      .step .charge, .step .shipping]
  | .shipped => [.step .init, .step .receive, .step .validate, .step .manualReview,
      .step .charge, .step .shipping, .step .shipped]

/-- The state chain of a run canceled at the manual-review gate. -/
def cancelChain : List SagaState :=
  [.step .init, .step .receive, .step .validate, .step .manualReview, .canceledState]

/-- A shipping environment with no transient failures and negligible
durations. -/
def noFlakyShipEnv : ShipEnv := ⟨fun _ => false, fun _ => 0, fun _ => false, fun _ => 0⟩

/-- A shipping environment whose dispatch step fails on every attempt. -/
def failDispatchShipEnv : ShipEnv := ⟨fun _ => false, fun _ => 0, fun _ => true, fun _ => 0⟩

/-- An order-workflow environment with no signals, no transient
failures and negligible durations. -/
def baseEnv : Env :=
  ⟨[], fun _ => false, fun _ => 0, [], fun _ => false, fun _ => 0, [], [],
    fun _ => false, fun _ => 0, [], noFlakyShipEnv, true, []⟩

/-- `baseEnv` with an `approve` signal arriving during the gate wait. -/
def approveEnv : Env := { baseEnv with gateSignals := [.approve] }

/-- `baseEnv` with a `cancel_order` signal arriving during the gate wait. -/
def cancelEnv : Env := { baseEnv with gateSignals := [.cancelOrder "changed mind"] }

/-- `approveEnv` with the charge activity failing on every attempt. -/
def chargeFailEnv : Env := { approveEnv with chargeFlaky := fun _ => true }

/-- `approveEnv` with the shipping sub-saga's dispatch step failing on
every attempt. -/
def dispatchFailEnv : Env := { approveEnv with shipEnv := failDispatchShipEnv }

/-- The empty database. -/
def db00 : DB := ⟨[], [], []⟩

/-- The canonical successor relation of the specification: strictly
forward moves along `init < receive < validate < manual_review < charge <
shipping < shipped`, plus the single transition from `manual_review` to
the terminal canceled state.  No transition leaves the canceled state. -/
def stepNext : SagaState → SagaState → Bool
  | .step a, .step b => decide (a.idx < b.idx)
  | .step .manualReview, .canceledState => true
  | _, _ => false

/-- The same environment with one extra `cancel_order` signal arriving
after the manual-review gate has been evaluated (at the end of whichever
post-gate suspension point the run is at). -/
def lateCancelEnv (env : Env) (reason : String) : Env :=
  { env with postChargeSignals := env.postChargeSignals ++ [.cancelOrder reason],
             postChildSignals := env.postChildSignals ++ [.cancelOrder reason] }

theorem findPayment_eq_of_payments_eq {db1 db2 : DB} (pid : String)
    (h : db1.payments = db2.payments) : findPayment db1 pid = findPayment db2 pid := by
  simp [findPayment, h]

theorem paymentRowCount_eq_of_payments_eq {db1 db2 : DB} (pid : String)
    (h : db1.payments = db2.payments) :
    paymentRowCount db1 pid = paymentRowCount db2 pid := by
  simp [paymentRowCount, h]

/-- A successful charge against a database that already holds a row for
`pid` leaves the `payments` table unchanged (appending only the audit
event) and returns that row's persisted values. -/
theorem payment_charged_existing (db : DB) (order : OrderInfo) (pid : String)
    (row : PaymentRow) (hrow : findPayment db pid = some row) :
    payment_charged false db order pid =
      .ok ({ db with events := db.events ++ [⟨order.order_id, "payment_charged"⟩] },
           ⟨row.status, row.amount, row.payment_id⟩) := by
  simp [payment_charged, hrow]

/-- A successful charge against a database with no row for `pid` appends
exactly the row `⟨pid, order.order_id, sumAmount order.items, "charged"⟩`
and returns its values. -/
theorem payment_charged_fresh (db : DB) (order : OrderInfo) (pid : String)
    (hnone : findPayment db pid = none) :
    payment_charged false db order pid =
      .ok ({ db with
              payments := db.payments ++ [⟨pid, order.order_id, sumAmount order.items, "charged"⟩],
              events := db.events ++ [⟨order.order_id, "payment_charged"⟩] },
           ⟨"charged", sumAmount order.items, pid⟩) := by
  have h1 : findPayment
      { db with payments := db.payments ++ [⟨pid, order.order_id, sumAmount order.items, "charged"⟩] } pid
      = some ⟨pid, order.order_id, sumAmount order.items, "charged"⟩ := by
    simp only [findPayment] at hnone ⊢
    rw [List.find?_append, hnone]
    simp
  simp [payment_charged, hnone, h1]

theorem paymentRowCount_eq_zero_of_findPayment_none {db : DB} {pid : String}
    (h : findPayment db pid = none) : paymentRowCount db pid = 0 := by
  simp only [findPayment, List.find?_eq_none] at h
  simp only [paymentRowCount, List.length_eq_zero, List.filter_eq_nil_iff]
  exact h

/-- Iterating the charge with a row for `pid` already present returns the
row's persisted values every time and never touches the `payments`
table. -/
theorem chargeSeq_existing (order : OrderInfo) (pid : String) (row : PaymentRow) :
    ∀ (n : Nat) (db : DB), findPayment db pid = some row →
      ∃ dbf, chargeSeq order pid n db =
          .ok (dbf, List.replicate n ⟨row.status, row.amount, row.payment_id⟩) ∧
        dbf.payments = db.payments := by
  intro n
  induction n with
  | zero => intro db _; exact ⟨db, rfl, rfl⟩
  | succ n ih =>
    intro db hrow
    have hstep := payment_charged_existing db order pid row hrow
    have hrow1 : findPayment
        { db with events := db.events ++ [⟨order.order_id, "payment_charged"⟩] } pid = some row := hrow
    obtain ⟨dbf, hseq, hpay⟩ :=
      ih { db with events := db.events ++ [⟨order.order_id, "payment_charged"⟩] } hrow1
    refine ⟨dbf, ?_, hpay⟩
    simp [chargeSeq, hstep, hseq, List.replicate_succ]

/-- C1.  For every `payment_id` and order, starting from a database with
no row for that key, any number of successful invocations of the
payment-charged operation all return the same `{status, amount,
payment_id}` record as the first successful invocation, the `payments`
table ends with exactly one row for the key, and that row carries the
originally persisted amount (`sumAmount order.items`) and status
(`"charged"`). -/
theorem payment_charged_idempotent (order : OrderInfo) (pid : String) (db0 : DB)
    (h0 : findPayment db0 pid = none) (n : Nat) (dbf : DB)
    (r0 : ChargeResult) (rs : List ChargeResult)
    (h : chargeSeq order pid (n + 1) db0 = .ok (dbf, r0 :: rs)) :
    r0 = ⟨"charged", sumAmount order.items, pid⟩ ∧
    (∀ r ∈ rs, r = r0) ∧
    paymentRowCount dbf pid = 1 ∧
    findPayment dbf pid = some ⟨pid, order.order_id, sumAmount order.items, "charged"⟩ := by
  have hstep := payment_charged_fresh db0 order pid h0
  set newRow : PaymentRow := ⟨pid, order.order_id, sumAmount order.items, "charged"⟩ with hnr
  set db1 : DB :=
    { db0 with payments := db0.payments ++ [newRow],
               events := db0.events ++ [⟨order.order_id, "payment_charged"⟩] } with hdb1
  have hrow1 : findPayment db1 pid = some newRow := by
    simp only [findPayment, hdb1] at h0 ⊢
    rw [List.find?_append, h0]
    simp [hnr]
  obtain ⟨dbf1, hseq, hpay⟩ := chargeSeq_existing order pid newRow n db1 hrow1
  have hmain : chargeSeq order pid (n + 1) db0 =
      .ok (dbf1, (⟨"charged", sumAmount order.items, pid⟩ : ChargeResult) ::
        List.replicate n ⟨newRow.status, newRow.amount, newRow.payment_id⟩) := by
    simp [chargeSeq, hstep, hseq]
  rw [hmain] at h
  obtain ⟨hdbf, hlist⟩ : dbf1 = dbf ∧
      (⟨"charged", sumAmount order.items, pid⟩ : ChargeResult) ::
        List.replicate n ⟨newRow.status, newRow.amount, newRow.payment_id⟩ = r0 :: rs := by
    have := Except.ok.inj h
    exact ⟨congrArg Prod.fst this, congrArg Prod.snd this⟩
  obtain ⟨hr0, hrs⟩ := List.cons.inj hlist
  have hcount1 : paymentRowCount db1 pid = 1 := by
    have h00 := paymentRowCount_eq_zero_of_findPayment_none h0
    simp only [paymentRowCount] at h00
    simp [paymentRowCount, hdb1, hnr, List.filter_append, h00]
  constructor
  · exact hr0.symm
  refine ⟨?_, ?_, ?_⟩
  · intro r hr
    rw [← hrs] at hr
    rw [← hr0]
    exact (List.eq_of_mem_replicate hr).trans rfl
  · rw [← hdbf]
    rw [paymentRowCount_eq_of_payments_eq pid hpay]
    exact hcount1
  · rw [← hdbf]
    rw [findPayment_eq_of_payments_eq pid hpay]
    exact hrow1

/-- Closed instance of C1: order `o1` with one quantity-2 item, key `p1`,
three successful invocations from an empty database. -/
theorem payment_charged_idempotent_witness :
    (⟨"charged", 2, "p1"⟩ : ChargeResult) = ⟨"charged", sumAmount [⟨some 2⟩], "p1"⟩ ∧
    (∀ r ∈ ([⟨"charged", 2, "p1"⟩, ⟨"charged", 2, "p1"⟩] : List ChargeResult),
      r = (⟨"charged", 2, "p1"⟩ : ChargeResult)) ∧
    paymentRowCount
      ⟨[], [⟨"o1", "payment_charged"⟩, ⟨"o1", "payment_charged"⟩, ⟨"o1", "payment_charged"⟩],
        [⟨"p1", "o1", 2, "charged"⟩]⟩ "p1" = 1 ∧
    findPayment
      ⟨[], [⟨"o1", "payment_charged"⟩, ⟨"o1", "payment_charged"⟩, ⟨"o1", "payment_charged"⟩],
        [⟨"p1", "o1", 2, "charged"⟩]⟩ "p1" = some ⟨"p1", "o1", sumAmount [⟨some 2⟩], "charged"⟩ := by
  have h := payment_charged_idempotent ⟨"o1", [⟨some 2⟩], []⟩ "p1" ⟨[], [], []⟩ (by decide)
    2 ⟨[], [⟨"o1", "payment_charged"⟩, ⟨"o1", "payment_charged"⟩, ⟨"o1", "payment_charged"⟩],
        [⟨"p1", "o1", 2, "charged"⟩]⟩
    ⟨"charged", 2, "p1"⟩ [⟨"charged", 2, "p1"⟩, ⟨"charged", 2, "p1"⟩] (by rfl)
  exact ⟨h.1, h.2.1, h.2.2.1, h.2.2.2⟩

/-- An operation failing with a retryable error on every attempt (with
negligible durations) is attempted exactly `maximumAttempts = 3` times,
with backoff waits of 200 ms and 400 ms, and surfaces the last attempt's
error. -/
theorem retryExec_exhausts (op : Nat → AttemptResult α) (e : Nat → ActivityError)
    (hop : ∀ k, op k = .err (e k) 0) (hr : ∀ k, (e k).nonRetryable = false) :
    retryExec actRetryPolicy actStartToClose actScheduleToClose op =
      ⟨.error (e 3), 3, [200, 400]⟩ := by
  simp [retryExec, retryExecGo, actRetryPolicy, actStartToClose, actScheduleToClose,
    backoffInterval, hop 1, hop 2, hop 3, hr 1, hr 2, hr 3]

/-- An operation succeeding on its first attempt (with negligible
duration) completes in one attempt with no backoff waits. -/
theorem retryExec_first_ok (op : Nat → AttemptResult α) (v : α) (h : op 1 = .ok v 0) :
    retryExec actRetryPolicy actStartToClose actScheduleToClose op = ⟨.ok v, 1, []⟩ := by
  simp [retryExec, retryExecGo, actRetryPolicy, actStartToClose, actScheduleToClose, h]

/-- C5.  Under the reference configuration (initial 200 ms, coefficient
2.0, ceiling 1 s, max attempts 3, per-attempt deadline 1 s, overall
deadline 3 s), a permanently failing retryable operation with negligible
attempt durations is attempted exactly 3 times, waiting 200 ms and then
400 ms between attempts, and the step fails fatally surfacing the last
attempt's error; and the wait scheduled after the failure of attempt
`k + 1` is `min(200 * 2 ^ k, 1000)` ms. -/
theorem retry_executor_exhaustion (e : Nat → ActivityError)
    (h : ∀ k, (e k).nonRetryable = false) :
    retryExec actRetryPolicy actStartToClose actScheduleToClose
        (fun k => (AttemptResult.err (e k) 0 : AttemptResult Unit)) =
      ⟨.error (e 3), 3, [200, 400]⟩ ∧
    ∀ k, backoffInterval actRetryPolicy (k + 1) = min (200 * 2 ^ k) 1000 := by
  constructor
  · exact retryExec_exhausts _ e (fun _ => rfl) h
  · intro k
    simp [backoffInterval, actRetryPolicy]

/-- Closed instance of C5: the operation fails every attempt with the
flaky transient error. -/
theorem retry_executor_exhaustion_witness :
    retryExec actRetryPolicy actStartToClose actScheduleToClose
        (fun _ => (AttemptResult.err ⟨"RuntimeError", "Forced failure for testing", false⟩ 0 :
          AttemptResult Unit)) =
      ⟨.error ⟨"RuntimeError", "Forced failure for testing", false⟩, 3, [200, 400]⟩ ∧
    ∀ k, backoffInterval actRetryPolicy (k + 1) = min (200 * 2 ^ k) 1000 :=
  retry_executor_exhaustion (fun _ => ⟨"RuntimeError", "Forced failure for testing", false⟩)
    (fun _ => rfl)

/-- A successful retry-executor result comes from some successful
attempt of the operation. -/
theorem retryExecGo_ok_inv (p : RetryPolicy) (stc sctc : Nat) (op : Nat → AttemptResult α) :
    ∀ (fuel attempt elapsed : Nat) (waits : List Nat) (v : α),
      (retryExecGo p stc sctc op fuel attempt elapsed waits).result = .ok v →
      ∃ k d, op k = .ok v d := by
  intro fuel
  induction fuel with
  | zero =>
    intro attempt elapsed waits v h
    simp [retryExecGo] at h
  | succ fuel ih =>
    intro attempt elapsed waits v h
    rw [retryExecGo] at h
    dsimp only at h
    split at h
    · rename_i w hres
      split at hres
      · simp at hres
      · split at hres
        · simp at hres
        · split at hres
          · rename_i u d hop
            refine ⟨attempt, d, ?_⟩
            rw [hop]
            simp at h hres
            rw [hres, h]
          · simp at hres
    · rename_i e hres
      split at h
      · simp at h
      · split at h
        · simp at h
        · split at h
          · simp at h
          · exact ih _ _ _ _ h

/-- A successful activity execution means the underlying business
operation succeeded without its transient failure firing, from the
database the step started at (failed attempts roll back). -/
theorem runActivity_ok_inv (flaky : Nat → Bool) (durs : Nat → Nat) (db : DB)
    (op : Bool → DB → Except BizError (DB × α)) (v : DB × α)
    (hop : ∀ d, op true d = .error .flaky)
    (h : (runActivity flaky durs db op).result = .ok v) :
    op false db = .ok v := by
  obtain ⟨k, d, hk⟩ := retryExecGo_ok_inv _ _ _ _ _ _ _ _ _ h
  cases hfk : flaky k with
  | true =>
    rw [hfk, hop db] at hk
    simp at hk
  | false =>
    rw [hfk] at hk
    cases hod : op false db with
    | error e => rw [hod] at hk; simp at hk
    | ok r => rw [hod] at hk; simp at hk; rw [hk.1]

theorem deliverChildSignal_current_step (s : WfState) (o : Option String) (b : Bool) :
    (deliverChildSignal s o b).current_step = s.current_step := by
  cases o <;> cases b <;> rfl

theorem deliverChildSignal_reason (s : WfState) (o : Option String) (b : Bool)
    (ho : o.isSome = true) (hb : b = true) :
    (deliverChildSignal s o b).dispatch_failed_reason.isSome = true := by
  cases o with
  | none => simp at ho
  | some m => subst hb; simp [deliverChildSignal, applySig]

theorem applySig_current_step (s : WfState) (sig : Sig) :
    (applySig s sig).current_step = s.current_step := by
  cases sig <;> rfl

theorem applySigs_current_step (s : WfState) (l : List Sig) :
    (applySigs s l).current_step = s.current_step := by
  induction l generalizing s with
  | nil => rfl
  | cons sig l ih => rw [applySigs, List.foldl_cons, ← applySigs, ih, applySig_current_step]

theorem applySig_reason_isSome (s : WfState) (sig : Sig)
    (h : s.dispatch_failed_reason.isSome = true) :
    (applySig s sig).dispatch_failed_reason.isSome = true := by
  cases sig <;> simp [applySig] <;> exact h

theorem applySigs_reason_isSome (s : WfState) (l : List Sig)
    (h : s.dispatch_failed_reason.isSome = true) :
    (applySigs s l).dispatch_failed_reason.isSome = true := by
  induction l generalizing s with
  | nil => exact h
  | cons sig l ih =>
    rw [applySigs, List.foldl_cons, ← applySigs]
    exact ih _ (applySig_reason_isSome s sig h)

/-- The shipping sub-saga invokes only its two ledger operations. -/
theorem shippingRun_ledgerOps (env : ShipEnv) (db : DB) (order : OrderInfo) :
    (shippingRun env db order).ledgerOps = [.opPackagePrepared] ∨
    (shippingRun env db order).ledgerOps = [.opPackagePrepared, .opCarrierDispatched] := by
  unfold shippingRun
  split
  · exact Or.inl rfl
  · split
    · exact Or.inr rfl
    · exact Or.inr rfl

/-- The only successful result of the shipping sub-saga is `"Shipped"`. -/
theorem shippingRun_ok (env : ShipEnv) (db : DB) (order : OrderInfo) (res : String)
    (h : (shippingRun env db order).result = .ok res) : res = "Shipped" := by
  unfold shippingRun at h
  split at h
  · simp at h
  · split at h
    · simp at h
    · simp at h; exact h.symm

/-- When the dispatch step of the shipping sub-saga surfaces an error,
the sub-saga fails with that error and has sent `dispatch_failed` with
the error's message to its parent beforehand. -/
theorem shippingRun_dispatch_failed (env : ShipEnv) (db db1 : DB) (order : OrderInfo)
    (x : String) (e : ActivityError)
    (hprep : (runActivity env.prepareFlaky env.prepareDur db
      (fun fl d => package_prepared fl d order)).result = .ok (db1, x))
    (hdisp : (runActivity env.dispatchFlaky env.dispatchDur db1
      (fun fl d => carrier_dispatched fl d order)).result = .error e) :
    shippingRun env db order =
      ⟨.error e, db1, [.opPackagePrepared, .opCarrierDispatched], some e.msg⟩ := by
  unfold shippingRun
  simp only [hprep]
  simp only [hdisp]

/-- Exhaustive description of the shipping phase: the child fails and
the run fails with its error (recording the delivered `dispatch_failed`
reason), or the child succeeds and the run completes with its result. -/
theorem runShipping_shape (env : Env) (db3 : DB) (s10 : WfState) :
    (∃ db oarg e,
      (shippingRun env.shipEnv db oarg).result = .error e ∧
      (runShipping env db3 s10).outcome = .failed e ∧
      (runShipping env db3 s10).ledgerOps =
        [.opOrderReceived, .opOrderValidated, .opPaymentCharged] ++
          (shippingRun env.shipEnv db oarg).ledgerOps ∧
      (runShipping env db3 s10).states = chainTo .shipping ∧
      (runShipping env db3 s10).final.current_step = .shipping ∧
      (runShipping env db3 s10).db = (shippingRun env.shipEnv db oarg).db ∧
      ((shippingRun env.shipEnv db oarg).signalSent.isSome = true ∧
          env.signalDelivered = true →
        (runShipping env db3 s10).final.dispatch_failed_reason.isSome = true)) ∨
    (∃ db oarg res,
      (shippingRun env.shipEnv db oarg).result = .ok res ∧
      (runShipping env db3 s10).outcome = .completed res ∧
      (runShipping env db3 s10).ledgerOps =
        [.opOrderReceived, .opOrderValidated, .opPaymentCharged] ++
          (shippingRun env.shipEnv db oarg).ledgerOps ∧
      (runShipping env db3 s10).states = chainTo .shipped ∧
      (runShipping env db3 s10).final.current_step = .shipped ∧
      (runShipping env db3 s10).db = (shippingRun env.shipEnv db oarg).db) := by
  unfold runShipping
  dsimp only
  split
  · refine Or.inl ⟨db3, _, _, ?_, rfl, rfl, rfl, ?_, rfl, ?_⟩
    · assumption
    · simp [applySigs_current_step, deliverChildSignal_current_step]
    · rintro ⟨hsent, hdel⟩
      exact applySigs_reason_isSome _ _ (deliverChildSignal_reason _ _ _ hsent hdel)
  · refine Or.inr ⟨db3, _, _, ?_, rfl, rfl, rfl, rfl, rfl⟩
    assumption

/-- Exhaustive description of the charge phase: the charge fails
fatally, or the run continues with the shipping phase. -/
theorem runCharge_shape (env : Env) (db2 : DB) (s8 : WfState) :
    (∃ e, (runCharge env db2 s8).outcome = .failed e ∧
      (runCharge env db2 s8).ledgerOps =
        [.opOrderReceived, .opOrderValidated, .opPaymentCharged] ∧
      (runCharge env db2 s8).states = chainTo .charge ∧
      (runCharge env db2 s8).final = { s8 with current_step := .charge }) ∨
    (∃ db oarg e,
      (shippingRun env.shipEnv db oarg).result = .error e ∧
      (runCharge env db2 s8).outcome = .failed e ∧
      (runCharge env db2 s8).ledgerOps =
        [.opOrderReceived, .opOrderValidated, .opPaymentCharged] ++
          (shippingRun env.shipEnv db oarg).ledgerOps ∧
      (runCharge env db2 s8).states = chainTo .shipping ∧
      (runCharge env db2 s8).final.current_step = .shipping ∧
      (runCharge env db2 s8).db = (shippingRun env.shipEnv db oarg).db ∧
      ((shippingRun env.shipEnv db oarg).signalSent.isSome = true ∧
          env.signalDelivered = true →
        (runCharge env db2 s8).final.dispatch_failed_reason.isSome = true)) ∨
    (∃ db oarg res,
      (shippingRun env.shipEnv db oarg).result = .ok res ∧
      (runCharge env db2 s8).outcome = .completed res ∧
      (runCharge env db2 s8).ledgerOps =
        [.opOrderReceived, .opOrderValidated, .opPaymentCharged] ++
          (shippingRun env.shipEnv db oarg).ledgerOps ∧
      (runCharge env db2 s8).states = chainTo .shipped ∧
      (runCharge env db2 s8).final.current_step = .shipped ∧
      (runCharge env db2 s8).db = (shippingRun env.shipEnv db oarg).db) := by
  unfold runCharge
  dsimp only
  split
  · exact Or.inl ⟨_, rfl, rfl, rfl, rfl⟩
  · rcases runShipping_shape env _ _ with
      ⟨db, oarg, e, hs, h1, h2, h3, h4, h5, h6⟩ | ⟨db, oarg, res, hs, h1, h2, h3, h4, h5⟩
    · exact Or.inr (Or.inl ⟨db, oarg, e, hs, h1, h2, h3, h4, h5, h6⟩)
    · exact Or.inr (Or.inr ⟨db, oarg, res, hs, h1, h2, h3, h4, h5⟩)

/-- Exhaustive description of the possible outcomes of `OrderWorkflow.run`:
the run fails at `receive`, at `validate`, suspends or cancels at the
`manual_review` gate, fails at `charge`, fails in the shipping sub-saga,
or completes with the sub-saga's result — each with the corresponding
state trace, invoked ledger operations, gate conditions and final
saga-local state. -/
theorem orderRun_shape (env : Env) (db0 : DB) (oid pid : String)
    (items : List Item) (addr : Address) (r : RunResult) (g : WfState)
    (hr : r = orderRun env db0 oid pid items addr)
    (hg : g = gateState env oid pid items addr) :
    (∃ e, r.outcome = .failed e ∧ r.ledgerOps = [.opOrderReceived] ∧
      r.states = chainTo .receive ∧ r.final.current_step = .receive) ∨
    (∃ e, r.outcome = .failed e ∧ r.ledgerOps = [.opOrderReceived, .opOrderValidated] ∧
      r.states = chainTo .validate ∧ r.final.current_step = .validate) ∨
    (g.approved = false ∧ g.canceled = false ∧ r.outcome = .suspended .manualReview ∧
      r.ledgerOps = [.opOrderReceived, .opOrderValidated] ∧
      r.states = chainTo .manualReview ∧ r.final = g) ∨
    (g.canceled = true ∧ r.outcome = .completed "Canceled" ∧
      r.ledgerOps = [.opOrderReceived, .opOrderValidated] ∧
      r.states = cancelChain ∧ r.final = g) ∨
    (g.approved = true ∧ g.canceled = false ∧ ∃ e, r.outcome = .failed e ∧
      r.ledgerOps = [.opOrderReceived, .opOrderValidated, .opPaymentCharged] ∧
      r.states = chainTo .charge ∧ r.final = { g with current_step := .charge }) ∨
    (g.approved = true ∧ g.canceled = false ∧ ∃ db3 oarg e,
      (shippingRun env.shipEnv db3 oarg).result = .error e ∧
      r.outcome = .failed e ∧
      r.ledgerOps = [.opOrderReceived, .opOrderValidated, .opPaymentCharged] ++
        (shippingRun env.shipEnv db3 oarg).ledgerOps ∧
      r.states = chainTo .shipping ∧ r.final.current_step = .shipping ∧
      r.db = (shippingRun env.shipEnv db3 oarg).db ∧
      ((shippingRun env.shipEnv db3 oarg).signalSent.isSome = true ∧ env.signalDelivered = true →
        r.final.dispatch_failed_reason.isSome = true)) ∨
    (g.approved = true ∧ g.canceled = false ∧ ∃ db3 oarg res,
      (shippingRun env.shipEnv db3 oarg).result = .ok res ∧
      r.outcome = .completed res ∧
      r.ledgerOps = [.opOrderReceived, .opOrderValidated, .opPaymentCharged] ++
        (shippingRun env.shipEnv db3 oarg).ledgerOps ∧
      r.states = chainTo .shipped ∧ r.final.current_step = .shipped ∧
      r.db = (shippingRun env.shipEnv db3 oarg).db) := by
  subst hr hg
  unfold orderRun gateState
  dsimp only
  split
  · exact Or.inl ⟨_, rfl, rfl, rfl, rfl⟩
  · split
    · exact Or.inr (Or.inl ⟨_, rfl, rfl, rfl, rfl⟩)
    · split
      · split
        · refine Or.inr (Or.inr (Or.inr (Or.inl ⟨?_, rfl, rfl, rfl, rfl⟩)))
          assumption
        · rename_i hor hcan
          have hap := (Bool.or_eq_true_iff.mp hor).resolve_right hcan
          have hcanf := Bool.eq_false_iff.mpr hcan
          rcases runCharge_shape env _ _ with
            ⟨e, h1, h2, h3, h4⟩ |
            ⟨db3, oarg, e, hs, h1, h2, h3, h4, h5, h6⟩ |
            ⟨db3, oarg, res, hs, h1, h2, h3, h4, h5⟩
          · exact Or.inr (Or.inr (Or.inr (Or.inr (Or.inl
              ⟨hap, hcanf, e, h1, h2, h3, h4⟩))))
          · exact Or.inr (Or.inr (Or.inr (Or.inr (Or.inr (Or.inl
              ⟨hap, hcanf, db3, oarg, e, hs, h1, h2, h3, h4, h5, h6⟩)))))
          · exact Or.inr (Or.inr (Or.inr (Or.inr (Or.inr (Or.inr
              ⟨hap, hcanf, db3, oarg, res, hs, h1, h2, h3, h4, h5⟩)))))
      · rename_i hor
        have hboth := Bool.or_eq_false_iff.mp (Bool.of_not_eq_true hor)
        exact Or.inr (Or.inr (Or.inl ⟨hboth.1, hboth.2, rfl, rfl, rfl, rfl⟩))

/-- C2.  If the run reaches the `manual_review` gate and `canceled` is
true by the moment the gate is evaluated (whether or not `approved` is
also true), the run terminates with `"Canceled"`, the charge and
shipping operations are never invoked, and the saga ends in the terminal
canceled state. -/
theorem cancel_wins_at_gate (env : Env) (db0 : DB) (oid pid : String)
    (items : List Item) (addr : Address)
    (hreach : SagaState.step .manualReview ∈ (orderRun env db0 oid pid items addr).states)
    (hcan : (gateState env oid pid items addr).canceled = true) :
    (orderRun env db0 oid pid items addr).outcome = .completed "Canceled" ∧
    LedgerOp.opPaymentCharged ∉ (orderRun env db0 oid pid items addr).ledgerOps ∧
    LedgerOp.opPackagePrepared ∉ (orderRun env db0 oid pid items addr).ledgerOps ∧
    LedgerOp.opCarrierDispatched ∉ (orderRun env db0 oid pid items addr).ledgerOps ∧
    (orderRun env db0 oid pid items addr).states.getLast? = some .canceledState := by
  rcases orderRun_shape env db0 oid pid items addr _ _ rfl rfl with
    ⟨e, h1, h2, h3, h4⟩ | ⟨e, h1, h2, h3, h4⟩ | ⟨ha, hc, h1, h2, h3, h4⟩ |
    ⟨hc, h1, h2, h3, h4⟩ | ⟨ha, hc, e, h1, h2, h3, h4⟩ |
    ⟨ha, hc, db3, oarg, e, hs, h1, h2, h3, h4, h5, h6⟩ |
    ⟨ha, hc, db3, oarg, res, hs, h1, h2, h3, h4, h5⟩
  · rw [h3] at hreach; simp [chainTo] at hreach
  · rw [h3] at hreach; simp [chainTo] at hreach
  · rw [hcan] at hc; exact absurd hc (by simp)
  · rw [h1, h2, h3]
    refine ⟨rfl, by decide, by decide, by decide, by decide⟩
  · rw [hcan] at hc; exact absurd hc (by simp)
  · rw [hcan] at hc; exact absurd hc (by simp)
  · rw [hcan] at hc; exact absurd hc (by simp)

/-- Closed instance of C2: a cancel signal (with an approve also
present) observed at the gate of an otherwise failure-free run. -/
theorem cancel_wins_at_gate_witness :
    (orderRun cancelEnv db00 "o1" "p1" [⟨some 2⟩] []).outcome = .completed "Canceled" ∧
    LedgerOp.opPaymentCharged ∉ (orderRun cancelEnv db00 "o1" "p1" [⟨some 2⟩] []).ledgerOps ∧
    LedgerOp.opPackagePrepared ∉ (orderRun cancelEnv db00 "o1" "p1" [⟨some 2⟩] []).ledgerOps ∧
    LedgerOp.opCarrierDispatched ∉ (orderRun cancelEnv db00 "o1" "p1" [⟨some 2⟩] []).ledgerOps ∧
    (orderRun cancelEnv db00 "o1" "p1" [⟨some 2⟩] []).states.getLast? = some .canceledState :=
  cancel_wins_at_gate cancelEnv db00 "o1" "p1" [⟨some 2⟩] [] (by decide) (by decide)

theorem gateState_current_step (env : Env) (oid pid : String)
    (items : List Item) (addr : Address) :
    (gateState env oid pid items addr).current_step = .manualReview := by
  unfold gateState
  dsimp only
  rw [applySigs_current_step]

/-- C3.  If the run reaches the `manual_review` gate and the bounded wait
elapses with neither `approved` nor `canceled` set, the instance remains
suspended at `manual_review`: the elapsed wait alone neither cancels the
run, nor fails it, nor produces a terminal result, and the charge and
shipping steps are never executed. -/
theorem gate_timeout_suspends (env : Env) (db0 : DB) (oid pid : String)
    (items : List Item) (addr : Address)
    (hreach : SagaState.step .manualReview ∈ (orderRun env db0 oid pid items addr).states)
    (hap : (gateState env oid pid items addr).approved = false)
    (hcan : (gateState env oid pid items addr).canceled = false) :
    (orderRun env db0 oid pid items addr).outcome = .suspended .manualReview ∧
    (∀ res, (orderRun env db0 oid pid items addr).outcome ≠ .completed res) ∧
    (∀ e, (orderRun env db0 oid pid items addr).outcome ≠ .failed e) ∧
    (orderRun env db0 oid pid items addr).final.current_step = .manualReview ∧
    LedgerOp.opPaymentCharged ∉ (orderRun env db0 oid pid items addr).ledgerOps ∧
    LedgerOp.opPackagePrepared ∉ (orderRun env db0 oid pid items addr).ledgerOps := by
  rcases orderRun_shape env db0 oid pid items addr _ _ rfl rfl with
    ⟨e, h1, h2, h3, h4⟩ | ⟨e, h1, h2, h3, h4⟩ | ⟨ha, hc, h1, h2, h3, h4⟩ |
    ⟨hc, h1, h2, h3, h4⟩ | ⟨ha, hc, e, h1, h2, h3, h4⟩ |
    ⟨ha, hc, db3, oarg, e, hs, h1, h2, h3, h4, h5, h6⟩ |
    ⟨ha, hc, db3, oarg, res, hs, h1, h2, h3, h4, h5⟩
  · rw [h3] at hreach; simp [chainTo] at hreach
  · rw [h3] at hreach; simp [chainTo] at hreach
  · rw [h1, h2, h4]
    exact ⟨rfl, by simp, by simp, gateState_current_step env oid pid items addr,
      by decide, by decide⟩
  · rw [hcan] at hc; exact absurd hc (by simp)
  · rw [hap] at ha; exact absurd ha (by simp)
  · rw [hap] at ha; exact absurd ha (by simp)
  · rw [hap] at ha; exact absurd ha (by simp)

/-- Closed instance of C3: no signal arrives before the gate wait
elapses in an otherwise failure-free run. -/
theorem gate_timeout_suspends_witness :
    (orderRun baseEnv db00 "o1" "p1" [⟨some 2⟩] []).outcome = .suspended .manualReview ∧
    (∀ res, (orderRun baseEnv db00 "o1" "p1" [⟨some 2⟩] []).outcome ≠ .completed res) ∧
    (∀ e, (orderRun baseEnv db00 "o1" "p1" [⟨some 2⟩] []).outcome ≠ .failed e) ∧
    (orderRun baseEnv db00 "o1" "p1" [⟨some 2⟩] []).final.current_step = .manualReview ∧
    LedgerOp.opPaymentCharged ∉ (orderRun baseEnv db00 "o1" "p1" [⟨some 2⟩] []).ledgerOps ∧
    LedgerOp.opPackagePrepared ∉ (orderRun baseEnv db00 "o1" "p1" [⟨some 2⟩] []).ledgerOps :=
  gate_timeout_suspends baseEnv db00 "o1" "p1" [⟨some 2⟩] [] (by decide) (by decide) (by decide)

/-- C8.  Over every environment (hence every history of applied signals
and step results), the trace of saga states of a run is strictly
ascending along the canonical ordering: `current_step` never moves
backwards, the canceled state is entered from `manual_review` only, and
nothing follows it. -/
theorem current_step_monotone (env : Env) (db0 : DB) (oid pid : String)
    (items : List Item) (addr : Address) :
    List.Chain' (fun a b => stepNext a b = true)
      (orderRun env db0 oid pid items addr).states := by
  rcases orderRun_shape env db0 oid pid items addr _ _ rfl rfl with
    ⟨e, h1, h2, h3, h4⟩ | ⟨e, h1, h2, h3, h4⟩ | ⟨ha, hc, h1, h2, h3, h4⟩ |
    ⟨hc, h1, h2, h3, h4⟩ | ⟨ha, hc, e, h1, h2, h3, h4⟩ |
    ⟨ha, hc, db3, oarg, e, hs, h1, h2, h3, h4, h5, h6⟩ |
    ⟨ha, hc, db3, oarg, res, hs, h1, h2, h3, h4, h5⟩ <;>
    (rw [h3]; repeat first | rfl | constructor)

theorem applySigs_append_cancel (s : WfState) (l : List Sig) (reason : String) :
    applySigs s (l ++ [.cancelOrder reason]) = { applySigs s l with canceled := true } := by
  rw [applySigs, List.foldl_append]
  rfl

/-- Setting the `canceled` flag on entry to the shipping phase and
appending a late `cancel_order` signal leaves the phase's outcome, state
trace, ledger operations and database unchanged: `canceled` is never
read after the gate. -/
theorem runShipping_cancel_irrelevant (env : Env) (reason : String) (db3 : DB)
    (s10 : WfState) :
    (runShipping (lateCancelEnv env reason) db3 { s10 with canceled := true }).outcome =
      (runShipping env db3 s10).outcome ∧
    (runShipping (lateCancelEnv env reason) db3 { s10 with canceled := true }).states =
      (runShipping env db3 s10).states ∧
    (runShipping (lateCancelEnv env reason) db3 { s10 with canceled := true }).ledgerOps =
      (runShipping env db3 s10).ledgerOps ∧
    (runShipping (lateCancelEnv env reason) db3 { s10 with canceled := true }).db =
      (runShipping env db3 s10).db := by
  unfold runShipping lateCancelEnv
  dsimp only
  cases hs : (shippingRun env.shipEnv db3
      ⟨s10.order_id, s10.items, s10.address.getD []⟩).result with
  | error e => exact ⟨rfl, rfl, rfl, rfl⟩
  | ok r => exact ⟨rfl, rfl, rfl, rfl⟩

/-- The charge phase is likewise insensitive to a post-gate
`cancel_order` signal. -/
theorem runCharge_lateCancel (env : Env) (reason : String) (db2 : DB) (s8 : WfState) :
    (runCharge (lateCancelEnv env reason) db2 s8).outcome =
      (runCharge env db2 s8).outcome ∧
    (runCharge (lateCancelEnv env reason) db2 s8).states =
      (runCharge env db2 s8).states ∧
    (runCharge (lateCancelEnv env reason) db2 s8).ledgerOps =
      (runCharge env db2 s8).ledgerOps ∧
    (runCharge (lateCancelEnv env reason) db2 s8).db =
      (runCharge env db2 s8).db := by
  unfold runCharge lateCancelEnv
  dsimp only
  cases hch : (runActivity env.chargeFlaky env.chargeDur db2
      (fun fl d => payment_charged fl d ⟨s8.order_id, s8.items, s8.address.getD []⟩
        s8.payment_id)).result with
  | error e => exact ⟨rfl, rfl, rfl, rfl⟩
  | ok p =>
    rcases p with ⟨db3, x⟩
    rw [applySigs_append_cancel]
    exact runShipping_cancel_irrelevant env reason db3 _

/-- A `cancel_order` signal delivered after the gate changes nothing
observable about the run: outcome, state trace, invoked ledger
operations and final database all coincide with the run without it
(the signal is recorded in the saga-local `canceled` flag but the flag
is never read again after the gate). -/
theorem orderRun_lateCancel (env : Env) (db0 : DB) (oid pid : String)
    (items : List Item) (addr : Address) (reason : String) :
    (orderRun (lateCancelEnv env reason) db0 oid pid items addr).outcome =
      (orderRun env db0 oid pid items addr).outcome ∧
    (orderRun (lateCancelEnv env reason) db0 oid pid items addr).states =
      (orderRun env db0 oid pid items addr).states ∧
    (orderRun (lateCancelEnv env reason) db0 oid pid items addr).ledgerOps =
      (orderRun env db0 oid pid items addr).ledgerOps ∧
    (orderRun (lateCancelEnv env reason) db0 oid pid items addr).db =
      (orderRun env db0 oid pid items addr).db := by
  unfold orderRun lateCancelEnv
  dsimp only
  split
  · exact ⟨rfl, rfl, rfl, rfl⟩
  · split
    · exact ⟨rfl, rfl, rfl, rfl⟩
    · split
      · split
        · exact ⟨rfl, rfl, rfl, rfl⟩
        · exact runCharge_lateCancel env reason _ _
      · exact ⟨rfl, rfl, rfl, rfl⟩

/-- C9.  If the run reaches the `manual_review` gate with `approved` true
and `canceled` false at the moment the gate is evaluated, it proceeds to
the charge step (entering `charge` and invoking the payment operation)
and onward to the shipping step (entered, with the prepare operation
invoked, whenever the charge step succeeds — a run not entering
`shipping` ended in a fatal step failure, never in cancellation); and a
`cancel_order` signal arriving after the gate changes none of the run's
outcome, state trace, ledger operations or database. -/
theorem approve_wins_at_gate (env : Env) (db0 : DB) (oid pid : String)
    (items : List Item) (addr : Address) (reason : String)
    (hreach : SagaState.step .manualReview ∈ (orderRun env db0 oid pid items addr).states)
    (hap : (gateState env oid pid items addr).approved = true)
    (hcan : (gateState env oid pid items addr).canceled = false) :
    SagaState.step .charge ∈ (orderRun env db0 oid pid items addr).states ∧
    LedgerOp.opPaymentCharged ∈ (orderRun env db0 oid pid items addr).ledgerOps ∧
    ((∃ e, (orderRun env db0 oid pid items addr).outcome = .failed e) ∨
      (SagaState.step .shipping ∈ (orderRun env db0 oid pid items addr).states ∧
        LedgerOp.opPackagePrepared ∈ (orderRun env db0 oid pid items addr).ledgerOps)) ∧
    (orderRun env db0 oid pid items addr).outcome ≠ .completed "Canceled" ∧
    (orderRun (lateCancelEnv env reason) db0 oid pid items addr).outcome =
      (orderRun env db0 oid pid items addr).outcome ∧
    (orderRun (lateCancelEnv env reason) db0 oid pid items addr).states =
      (orderRun env db0 oid pid items addr).states ∧
    (orderRun (lateCancelEnv env reason) db0 oid pid items addr).ledgerOps =
      (orderRun env db0 oid pid items addr).ledgerOps ∧
    (orderRun (lateCancelEnv env reason) db0 oid pid items addr).db =
      (orderRun env db0 oid pid items addr).db := by
  obtain ⟨hout, hst, hops, hdb⟩ := orderRun_lateCancel env db0 oid pid items addr reason
  rcases orderRun_shape env db0 oid pid items addr _ _ rfl rfl with
    ⟨e, h1, h2, h3, h4⟩ | ⟨e, h1, h2, h3, h4⟩ | ⟨ha, hc, h1, h2, h3, h4⟩ |
    ⟨hc, h1, h2, h3, h4⟩ | ⟨ha, hc, e, h1, h2, h3, h4⟩ |
    ⟨ha, hc, db3, oarg, e, hs, h1, h2, h3, h4, h5, h6⟩ |
    ⟨ha, hc, db3, oarg, res, hs, h1, h2, h3, h4, h5⟩
  · rw [h3] at hreach; simp [chainTo] at hreach
  · rw [h3] at hreach; simp [chainTo] at hreach
  · rw [hap] at ha; exact absurd ha (by simp)
  · rw [hcan] at hc; exact absurd hc (by simp)
  · exact ⟨by rw [h3]; decide, by rw [h2]; decide, Or.inl ⟨e, h1⟩,
      by rw [h1]; simp, hout, hst, hops, hdb⟩
  · exact ⟨by rw [h3]; decide, by rw [h2]; simp,
      Or.inr ⟨by rw [h3]; decide,
        by rw [h2]
           rcases shippingRun_ledgerOps env.shipEnv db3 oarg with hl | hl <;> rw [hl] <;> decide⟩,
      by rw [h1]; simp, hout, hst, hops, hdb⟩
  · refine ⟨by rw [h3]; decide, by rw [h2]; simp,
      Or.inr ⟨by rw [h3]; decide,
        by rw [h2]
           rcases shippingRun_ledgerOps env.shipEnv db3 oarg with hl | hl <;> rw [hl] <;> decide⟩,
      ?_, hout, hst, hops, hdb⟩
    rw [h1]
    intro hcontra
    have := shippingRun_ok env.shipEnv db3 oarg res hs
    rw [RunOutcome.completed.inj hcontra] at this
    simp at this

/-- Closed instance of C9: an `approve` signal observed at the gate of an
otherwise failure-free run, with a late cancellation arriving after the
charge. -/
theorem approve_wins_at_gate_witness :
    SagaState.step .charge ∈ (orderRun approveEnv db00 "o1" "p1" [⟨some 2⟩] []).states ∧
    LedgerOp.opPaymentCharged ∈ (orderRun approveEnv db00 "o1" "p1" [⟨some 2⟩] []).ledgerOps ∧
    ((∃ e, (orderRun approveEnv db00 "o1" "p1" [⟨some 2⟩] []).outcome = .failed e) ∨
      (SagaState.step .shipping ∈ (orderRun approveEnv db00 "o1" "p1" [⟨some 2⟩] []).states ∧
        LedgerOp.opPackagePrepared ∈
          (orderRun approveEnv db00 "o1" "p1" [⟨some 2⟩] []).ledgerOps)) ∧
    (orderRun approveEnv db00 "o1" "p1" [⟨some 2⟩] []).outcome ≠ .completed "Canceled" ∧
    (orderRun (lateCancelEnv approveEnv "changed mind") db00 "o1" "p1" [⟨some 2⟩] []).outcome =
      (orderRun approveEnv db00 "o1" "p1" [⟨some 2⟩] []).outcome ∧
    (orderRun (lateCancelEnv approveEnv "changed mind") db00 "o1" "p1" [⟨some 2⟩] []).states =
      (orderRun approveEnv db00 "o1" "p1" [⟨some 2⟩] []).states ∧
    (orderRun (lateCancelEnv approveEnv "changed mind") db00 "o1" "p1" [⟨some 2⟩] []).ledgerOps =
      (orderRun approveEnv db00 "o1" "p1" [⟨some 2⟩] []).ledgerOps ∧
    (orderRun (lateCancelEnv approveEnv "changed mind") db00 "o1" "p1" [⟨some 2⟩] []).db =
      (orderRun approveEnv db00 "o1" "p1" [⟨some 2⟩] []).db :=
  approve_wins_at_gate approveEnv db00 "o1" "p1" [⟨some 2⟩] [] "changed mind"
    (by decide) (by decide) (by decide)

/-- C7 counterexample.  A run whose charge step fails fatally: before the
charge step began, `current_step` was `manual_review` (the trace is
exactly `init, receive, validate, manual_review, charge`), yet after the
fatal failure `current_step` reads `charge` — the failing step's own
name, not the value it had before the failing step began. -/
theorem failed_step_counterexample :
    (orderRun chargeFailEnv db00 "o1" "p1" [⟨some 2⟩] []).outcome =
      .failed ⟨"RuntimeError", "Forced failure for testing", false⟩ ∧
    (orderRun chargeFailEnv db00 "o1" "p1" [⟨some 2⟩] []).states = chainTo .charge ∧
    (orderRun chargeFailEnv db00 "o1" "p1" [⟨some 2⟩] []).final.current_step = .charge ∧
    ¬((orderRun chargeFailEnv db00 "o1" "p1" [⟨some 2⟩] []).final.current_step =
      .manualReview) :=
  ⟨by decide, by decide, by decide, by decide⟩

/-- C7 (amended).  After a fatal step failure, `current_step` is left at
the failing step's own name — the value assigned on entry to that step,
which the failure neither advances nor reverts — so it equals the last
state of the run's trace, and the `status()` query still reports it. -/
theorem failed_step_reports_itself (env : Env) (db0 : DB) (oid pid : String)
    (items : List Item) (addr : Address) (e : ActivityError)
    (hfail : (orderRun env db0 oid pid items addr).outcome = .failed e) :
    (orderRun env db0 oid pid items addr).states.getLast? =
      some (.step (orderRun env db0 oid pid items addr).final.current_step) ∧
    (status (orderRun env db0 oid pid items addr).final).step =
      (orderRun env db0 oid pid items addr).final.current_step := by
  rcases orderRun_shape env db0 oid pid items addr _ _ rfl rfl with
    ⟨e1, h1, h2, h3, h4⟩ | ⟨e1, h1, h2, h3, h4⟩ | ⟨ha, hc, h1, h2, h3, h4⟩ |
    ⟨hc, h1, h2, h3, h4⟩ | ⟨ha, hc, e1, h1, h2, h3, h4⟩ |
    ⟨ha, hc, db3, oarg, e1, hs, h1, h2, h3, h4, h5, h6⟩ |
    ⟨ha, hc, db3, oarg, res, hs, h1, h2, h3, h4, h5⟩
  · exact ⟨by rw [h3, h4]; decide, by simp [status, h4]⟩
  · exact ⟨by rw [h3, h4]; decide, by simp [status, h4]⟩
  · rw [hfail] at h1; exact absurd h1 (by simp)
  · rw [hfail] at h1; exact absurd h1 (by simp)
  · have hcs : (orderRun env db0 oid pid items addr).final.current_step = .charge := by
      rw [h4]
    exact ⟨by rw [h3, hcs]; decide, by simp [status, hcs]⟩
  · exact ⟨by rw [h3, h4]; decide, by simp [status, h4]⟩
  · rw [hfail] at h1; exact absurd h1 (by simp)

/-- Closed instance of the amended C7, at the same charge-failing run as
the counterexample. -/
theorem failed_step_reports_itself_witness :
    (orderRun chargeFailEnv db00 "o1" "p1" [⟨some 2⟩] []).states.getLast? =
      some (.step (orderRun chargeFailEnv db00 "o1" "p1" [⟨some 2⟩] []).final.current_step) ∧
    (status (orderRun chargeFailEnv db00 "o1" "p1" [⟨some 2⟩] []).final).step =
      (orderRun chargeFailEnv db00 "o1" "p1" [⟨some 2⟩] []).final.current_step :=
  failed_step_reports_itself chargeFailEnv db00 "o1" "p1" [⟨some 2⟩] []
    ⟨"RuntimeError", "Forced failure for testing", false⟩ (by decide)

/-- C6.  When the shipping sub-saga's dispatch step fails on every
attempt (and the prepare step does not), the sub-saga records the
prepare's effect, makes its dispatch attempts, sends
`dispatch_failed` with the error's message to its parent, and then fails
with that error — whatever database and order snapshot it was started
with; consequently a parent run that reached the shipping step fails
fatally with that error rather than completing `"Shipped"`, and (the
signal being delivered) its `dispatch_failed_reason` becomes non-null.
Conversely, when both steps succeed the sub-saga returns `"Shipped"`
without signalling. -/
theorem dispatch_failure_propagates (env : Env) (db0 : DB) (oid pid : String)
    (items : List Item) (addr : Address)
    (hpf : ∀ k, env.shipEnv.prepareFlaky k = false)
    (hpd : ∀ k, env.shipEnv.prepareDur k = 0)
    (hdf : ∀ k, env.shipEnv.dispatchFlaky k = true)
    (hdd : ∀ k, env.shipEnv.dispatchDur k = 0)
    (hdel : env.signalDelivered = true)
    (hreach : SagaState.step .shipping ∈ (orderRun env db0 oid pid items addr).states) :
    (∀ (db : DB) (oarg : OrderInfo), shippingRun env.shipEnv db oarg =
      ⟨.error ⟨"RuntimeError", "Forced failure for testing", false⟩,
        { db with events := db.events ++ [⟨oarg.order_id, "package_prepared"⟩] },
        [.opPackagePrepared, .opCarrierDispatched],
        some "Forced failure for testing"⟩) ∧
    (orderRun env db0 oid pid items addr).outcome =
      .failed ⟨"RuntimeError", "Forced failure for testing", false⟩ ∧
    (orderRun env db0 oid pid items addr).final.dispatch_failed_reason.isSome = true ∧
    (∀ res, (orderRun env db0 oid pid items addr).outcome ≠ .completed res) ∧
    (∀ (senv : ShipEnv) (db db1 db2 : DB) (oarg : OrderInfo) (x y : String),
      (runActivity senv.prepareFlaky senv.prepareDur db
        (fun fl d => package_prepared fl d oarg)).result = .ok (db1, x) →
      (runActivity senv.dispatchFlaky senv.dispatchDur db1
        (fun fl d => carrier_dispatched fl d oarg)).result = .ok (db2, y) →
      shippingRun senv db oarg =
        ⟨.ok "Shipped", db2, [.opPackagePrepared, .opCarrierDispatched], none⟩) := by
  have hship : ∀ (db : DB) (oarg : OrderInfo), shippingRun env.shipEnv db oarg =
      ⟨.error ⟨"RuntimeError", "Forced failure for testing", false⟩,
        { db with events := db.events ++ [⟨oarg.order_id, "package_prepared"⟩] },
        [.opPackagePrepared, .opCarrierDispatched],
        some "Forced failure for testing"⟩ := by
    intro db oarg
    have hprep : (runActivity env.shipEnv.prepareFlaky env.shipEnv.prepareDur db
        (fun fl d => package_prepared fl d oarg)).result =
        .ok ({ db with events := db.events ++ [⟨oarg.order_id, "package_prepared"⟩] },
          "Package ready") := by
      rw [runActivity, retryExec_first_ok]
      rw [hpf 1, hpd 1]
      rfl
    have hdisp : (runActivity env.shipEnv.dispatchFlaky env.shipEnv.dispatchDur
        { db with events := db.events ++ [⟨oarg.order_id, "package_prepared"⟩] }
        (fun fl d => carrier_dispatched fl d oarg)).result =
        .error ⟨"RuntimeError", "Forced failure for testing", false⟩ := by
      rw [runActivity, retryExec_exhausts _
        (fun _ => ⟨"RuntimeError", "Forced failure for testing", false⟩) ?_ (fun _ => rfl)]
      intro k
      rw [hdf k, hdd k]
      rfl
    have := shippingRun_dispatch_failed env.shipEnv db _ oarg "Package ready"
      ⟨"RuntimeError", "Forced failure for testing", false⟩ hprep hdisp
    rw [this]
  refine ⟨hship, ?_, ?_, ?_, ?_⟩
  rotate_right
  · intro senv db db1 db2 oarg x y hp hd
    unfold shippingRun
    rw [hp]
    dsimp only
    rw [hd]
  all_goals
    rcases orderRun_shape env db0 oid pid items addr _ _ rfl rfl with
      ⟨e1, h1, h2, h3, h4⟩ | ⟨e1, h1, h2, h3, h4⟩ | ⟨ha, hc, h1, h2, h3, h4⟩ |
      ⟨hc, h1, h2, h3, h4⟩ | ⟨ha, hc, e1, h1, h2, h3, h4⟩ |
      ⟨ha, hc, db3, oarg, e1, hs, h1, h2, h3, h4, h5, h6⟩ |
      ⟨ha, hc, db3, oarg, res, hs, h1, h2, h3, h4, h5⟩
  · rw [h3] at hreach; simp [chainTo] at hreach
  · rw [h3] at hreach; simp [chainTo] at hreach
  · rw [h3] at hreach; simp [chainTo] at hreach
  · rw [h3] at hreach; simp [cancelChain] at hreach
  · rw [h3] at hreach; simp [chainTo] at hreach
  · rw [hship db3 oarg] at hs
    simp only [Except.error.injEq] at hs
    rw [h1, hs]
  · rw [hship db3 oarg] at hs
    simp at hs
  · rw [h3] at hreach; simp [chainTo] at hreach
  · rw [h3] at hreach; simp [chainTo] at hreach
  · rw [h3] at hreach; simp [chainTo] at hreach
  · rw [h3] at hreach; simp [cancelChain] at hreach
  · rw [h3] at hreach; simp [chainTo] at hreach
  · refine h6 ⟨?_, hdel⟩
    rw [hship db3 oarg]
    rfl
  · rw [hship db3 oarg] at hs
    simp at hs
  · rw [h3] at hreach; simp [chainTo] at hreach
  · rw [h3] at hreach; simp [chainTo] at hreach
  · rw [h3] at hreach; simp [chainTo] at hreach
  · rw [h3] at hreach; simp [cancelChain] at hreach
  · rw [h3] at hreach; simp [chainTo] at hreach
  · intro res
    rw [h1]
    simp
  · rw [hship db3 oarg] at hs
    simp at hs

/-- Closed instance of C6: an approved, otherwise failure-free run whose
sub-saga dispatch step fails all attempts, signal delivered. -/
theorem dispatch_failure_propagates_witness :
    (∀ (db : DB) (oarg : OrderInfo), shippingRun dispatchFailEnv.shipEnv db oarg =
      ⟨.error ⟨"RuntimeError", "Forced failure for testing", false⟩,
        { db with events := db.events ++ [⟨oarg.order_id, "package_prepared"⟩] },
        [.opPackagePrepared, .opCarrierDispatched],
        some "Forced failure for testing"⟩) ∧
    (orderRun dispatchFailEnv db00 "o1" "p1" [⟨some 2⟩] []).outcome =
      .failed ⟨"RuntimeError", "Forced failure for testing", false⟩ ∧
    (orderRun dispatchFailEnv db00 "o1" "p1" [⟨some 2⟩] []).final.dispatch_failed_reason.isSome
      = true ∧
    (∀ res, (orderRun dispatchFailEnv db00 "o1" "p1" [⟨some 2⟩] []).outcome ≠
      .completed res) ∧
    (∀ (senv : ShipEnv) (db db1 db2 : DB) (oarg : OrderInfo) (x y : String),
      (runActivity senv.prepareFlaky senv.prepareDur db
        (fun fl d => package_prepared fl d oarg)).result = .ok (db1, x) →
      (runActivity senv.dispatchFlaky senv.dispatchDur db1
        (fun fl d => carrier_dispatched fl d oarg)).result = .ok (db2, y) →
      shippingRun senv db oarg =
        ⟨.ok "Shipped", db2, [.opPackagePrepared, .opCarrierDispatched], none⟩) :=
  dispatch_failure_propagates dispatchFailEnv db00 "o1" "p1" [⟨some 2⟩] []
    (fun _ => rfl) (fun _ => rfl) (fun _ => rfl) (fun _ => rfl) rfl (by decide)

/-- C4 counterexample.  The validate operation on an empty-items order
(no transient interference, negligible durations) is retried like any
other failure: the step makes 3 attempts — not 1 — waiting 200 ms and
400 ms between them, before surfacing the `ValueError`.  The claim's
"not retried — surfaced immediately" is false of the code: the retry
policy declares no non-retryable error types, so the runtime retries the
validation error up to the attempt cap. -/
theorem validate_empty_retried_counterexample :
    (runActivity (fun _ => false) (fun _ => 0) db00
      (fun fl d => order_validated fl d ⟨"o1", [], []⟩)).attempts = 3 ∧
    ¬((runActivity (fun _ => false) (fun _ => 0) db00
      (fun fl d => order_validated fl d ⟨"o1", [], []⟩)).attempts = 1) ∧
    (runActivity (fun _ => false) (fun _ => 0) db00
      (fun fl d => order_validated fl d ⟨"o1", [], []⟩)).waits = [200, 400] ∧
    (runActivity (fun _ => false) (fun _ => 0) db00
      (fun fl d => order_validated fl d ⟨"o1", [], []⟩)).result =
      .error ⟨"ValueError", "No items to validate", false⟩ :=
  ⟨by decide, by decide, by decide, rfl⟩

/-- C4 (amended).  A saga run started with an empty items list always
ends in a fatal step failure — the validate operation fails on every
attempt (the `ValueError` is retried up to the 3-attempt cap like any
other failure, each attempt failing identically, before being surfaced)
— and the run never reaches `manual_review`, hence never the canceled
state either. -/
theorem validate_empty_fatal (env : Env) (db0 : DB) (oid pid : String) (addr : Address) :
    (∃ e, (orderRun env db0 oid pid [] addr).outcome = .failed e) ∧
    SagaState.step .manualReview ∉ (orderRun env db0 oid pid [] addr).states ∧
    SagaState.canceledState ∉ (orderRun env db0 oid pid [] addr).states := by
  unfold orderRun
  dsimp only
  split
  · exact ⟨⟨_, rfl⟩, by simp, by simp⟩
  · rename_i p db1 order heq
    have hinv := runActivity_ok_inv env.receiveFlaky env.receiveDur db0 _ _
      (fun d => rfl) heq
    have hord : order = ⟨oid, [], addr⟩ := by
      unfold order_received at hinv
      simp at hinv
      exact hinv.2.symm
    subst hord
    split
    · exact ⟨⟨_, rfl⟩, by simp, by simp⟩
    · rename_i p2 db2 b heq2
      have hinv2 := runActivity_ok_inv env.validateFlaky env.validateDur db1 _ _
        (fun d => rfl) heq2
      rw [show order_validated false db1 ⟨oid, [], addr⟩ = .error .noItems from rfl] at hinv2
      exact absurd hinv2 (by simp)

theorem findOrder_eq_of_orders_eq {db1 db2 : DB} (oid : String)
    (h : db1.orders = db2.orders) : findOrder db1 oid = findOrder db2 oid := by
  simp [findOrder, h]

theorem find?_append_fresh (l : List OrderRow) (oid : String) (row : OrderRow)
    (hl : l.find? (fun r => r.id == oid) = none) (hrow : (row.id == oid) = true) :
    (l ++ [row]).find? (fun r => r.id == oid) = some row := by
  rw [List.find?_append, hl]
  simp [hrow]

theorem find?_validated_map (l : List OrderRow) (oid : String) (row : OrderRow)
    (h : l.find? (fun r => r.id == oid) = some row) :
    (l.map (fun r => if r.id == oid then { r with state := "validated" } else r)).find?
      (fun r => r.id == oid) = some { row with state := "validated" } := by
  rw [List.find?_map]
  have hpf : ((fun r : OrderRow => r.id == oid) ∘
      (fun r : OrderRow => if r.id == oid then { r with state := "validated" } else r)) =
      fun r : OrderRow => r.id == oid := by
    funext r
    by_cases hr : r.id = oid
    · simp [hr]
    · simp [hr]
  rw [hpf, h]
  have hrow : row.id = oid := by
    simpa using List.find?_some (p := fun r : OrderRow => r.id == oid) h
  simp [hrow]

/-- The payment operation leaves the `orders` table untouched. -/
theorem payment_charged_orders (db : DB) (o : OrderInfo) (pid : String) (db1 : DB)
    (r : ChargeResult) (h : payment_charged false db o pid = .ok (db1, r)) :
    db1.orders = db.orders := by
  unfold payment_charged at h
  dsimp only at h
  split at h
  · simp at h
  · split at h
    · simp at h
    · simp only [Except.ok.injEq, Prod.mk.injEq] at h
      rw [← h.1]

/-- The shipping sub-saga (which only appends events) leaves the
`orders` table untouched. -/
theorem shippingRun_db_orders (senv : ShipEnv) (db : DB) (o : OrderInfo) :
    (shippingRun senv db o).db.orders = db.orders := by
  unfold shippingRun
  split
  · rfl
  · rename_i p db1 x heq
    have h1 := runActivity_ok_inv senv.prepareFlaky senv.prepareDur db _ _
      (fun d => rfl) heq
    rw [show package_prepared false db o =
        .ok ({ db with events := db.events ++ [⟨o.order_id, "package_prepared"⟩] },
          "Package ready") from rfl] at h1
    simp only [Except.ok.injEq, Prod.mk.injEq] at h1
    have hdb1 : db1.orders = db.orders := by rw [← h1.1]
    split
    · exact hdb1
    · rename_i p2 db2 y heq2
      have h2 := runActivity_ok_inv senv.dispatchFlaky senv.dispatchDur db1 _ _
        (fun d => rfl) heq2
      rw [show carrier_dispatched false db1 o =
          .ok ({ db1 with events := db1.events ++ [⟨o.order_id, "carrier_dispatched"⟩] },
            "Dispatched") from rfl] at h2
      simp only [Except.ok.injEq, Prod.mk.injEq] at h2
      rw [← h2.1]
      exact hdb1

/-- The shipping sub-saga never invokes the order-shipped ledger
operation. -/
theorem shippingRun_no_shipOp (senv : ShipEnv) (db : DB) (o : OrderInfo) :
    LedgerOp.opOrderShipped ∉ (shippingRun senv db o).ledgerOps := by
  rcases shippingRun_ledgerOps senv db o with h | h <;> rw [h] <;> decide

/-- C10.  A run that completes with `"Shipped"`, started against a
database with no prior row for its order, never invokes the
order-shipped ledger operation (`mark_shipped_activity` is registered
but unreachable from both workflows), so the persisted `Order.state`
remains `validated` — never updated to `shipped` — even though
`current_step` and `status().step` report `shipped`. -/
theorem order_state_never_shipped (env : Env) (db0 : DB) (oid pid : String)
    (items : List Item) (addr : Address)
    (hfresh : findOrder db0 oid = none)
    (hdone : (orderRun env db0 oid pid items addr).outcome = .completed "Shipped") :
    LedgerOp.opOrderShipped ∉ (orderRun env db0 oid pid items addr).ledgerOps ∧
    findOrder (orderRun env db0 oid pid items addr).db oid =
      some ⟨oid, "validated", some addr⟩ ∧
    (orderRun env db0 oid pid items addr).final.current_step = .shipped ∧
    (status (orderRun env db0 oid pid items addr).final).step = .shipped := by
  revert hdone
  unfold orderRun
  dsimp only
  split
  · intro hdone; simp at hdone
  · rename_i p db1 order heqr
    split
    · intro hdone; simp at hdone
    · rename_i p2 db2 b heqv
      split
      · split
        · intro hdone
          exact absurd (RunOutcome.completed.inj hdone) (by decide)
        · unfold runCharge
          dsimp only
          split
          · intro hdone; simp at hdone
          · rename_i p3 db3 x heqc
            unfold runShipping
            dsimp only
            split
            · intro hdone; simp at hdone
            · rename_i r0 heqs
              intro hdone
              have hinv1 := runActivity_ok_inv env.receiveFlaky env.receiveDur db0 _ _
                (fun d => rfl) heqr
              unfold order_received at hinv1
              dsimp only at hinv1
              have hany : (db0.orders.any fun r => r.id == oid) = false := by
                rw [List.any_eq_false]
                intro y hy
                have := List.find?_eq_none.mp hfresh y hy
                simpa using this
              rw [hany] at hinv1
              split at hinv1
              · simp at hinv1
              · simp only [Bool.false_eq_true, if_false, Except.ok.injEq,
                  Prod.mk.injEq] at hinv1
                obtain ⟨hdb1, hord⟩ := hinv1
                subst hdb1
                subst hord
                have hfo1 : (db0.orders ++ [(⟨oid, "received", some addr⟩ : OrderRow)]).find?
                    (fun r => r.id == oid) = some ⟨oid, "received", some addr⟩ :=
                  find?_append_fresh _ _ _ hfresh (by simp)
                have hinv2 := runActivity_ok_inv env.validateFlaky env.validateDur _ _ _
                  (fun d => rfl) heqv
                unfold order_validated at hinv2
                dsimp only at hinv2
                split at hinv2
                · simp at hinv2
                · split at hinv2
                  · simp at hinv2
                  · simp only [Except.ok.injEq, Prod.mk.injEq] at hinv2
                    obtain ⟨hdb2, hb⟩ := hinv2
                    subst hdb2
                    have hinv3 := runActivity_ok_inv env.chargeFlaky env.chargeDur _ _ _
                      (fun d => rfl) heqc
                    have hdb3 := payment_charged_orders _ _ _ _ _ hinv3
                    refine ⟨?_, ?_, rfl, rfl⟩
                    · intro hmem
                      rw [List.mem_append] at hmem
                      rcases hmem with hmem | hmem
                      · simp at hmem
                      · exact shippingRun_no_shipOp _ _ _ hmem
                    · show findOrder (shippingRun env.shipEnv db3 _).db oid = _
                      rw [findOrder, shippingRun_db_orders, hdb3]
                      exact find?_validated_map _ _ _ hfo1
      · intro hdone; simp at hdone

/-- Closed instance of C10: an approved, failure-free run from the empty
database completes `"Shipped"`, yet the persisted order state stays
`validated`. -/
theorem order_state_never_shipped_witness :
    LedgerOp.opOrderShipped ∉ (orderRun approveEnv db00 "o1" "p1" [⟨some 2⟩] []).ledgerOps ∧
    findOrder (orderRun approveEnv db00 "o1" "p1" [⟨some 2⟩] []).db "o1" =
      some ⟨"o1", "validated", some []⟩ ∧
    (orderRun approveEnv db00 "o1" "p1" [⟨some 2⟩] []).final.current_step = .shipped ∧
    (status (orderRun approveEnv db00 "o1" "p1" [⟨some 2⟩] []).final).step = .shipped :=
  order_state_never_shipped approveEnv db00 "o1" "p1" [⟨some 2⟩] [] (by decide) (by decide)

end Trellis

